import Mathlib

/-!
Shallow embedding of the inventory-policy dashboard `src/app.py`.

Python floats are modelled as real numbers; the service level (a key of the
`z_map` dictionary, always an exact decimal literal in the code) is modelled
as a rational number, and the dictionary lookup `z_map[service_level]`
returns an `Option` (`none` models Python's `KeyError`).
-/

/-- One row of the forecast table `sku_forecasts.csv`:
`store_key`, `prod_key`, `date`, `prediction`, optional interval bounds. -/
structure ForecastRecord where
  store_key : String
  prod_key : String
  date : Nat
  prediction : ℝ
  upper_95 : Option ℝ := none
  lower_95 : Option ℝ := none

/-- One row of the policy table `inventory_policy.csv`. -/
structure PolicyRow where
  store_key : String
  prod_key : String
  mu_d : ℝ
  sigma_d : ℝ

/-- The five derived policy quantities computed at lines 102-106 of `app.py`
(per SKU) and lines 197-201 (per table row). -/
structure PolicyResult where
  safety_stock : ℝ
  reorder_point : ℝ
  holding_cost : ℝ
  stockout_cost : ℝ
  total_cost : ℝ

/-- The service-level to z-score dictionary
`z_map = {0.90: 1.28, 0.95: 1.65, 0.97: 1.88, 0.99: 2.33}` (line 96),
listed in its insertion order, which is the iteration order of
`z_map.items()` at line 183. -/
def zTable : List (ℚ × ℚ) :=
  [(0.90, 1.28), (0.95, 1.65), (0.97, 1.88), (0.99, 2.33)]

/-- The dictionary lookup `z_map[service_level]` (line 97): `some z` when the
service level is a key of the dictionary, `none` for Python's `KeyError`. -/
def z_map (service_level : ℚ) : Option ℚ :=
  if service_level = 0.90 then some 1.28
  else if service_level = 0.95 then some 1.65
  else if service_level = 0.97 then some 1.88
  else if service_level = 0.99 then some 2.33
  else none

/-- Lines 102-106 of `app.py` with an already looked-up z-score `Z`:

    safety_stock  = Z * sigma_d * np.sqrt(lead_time_days)
    reorder_point = mu_d * lead_time_days + safety_stock
    expected_hold = safety_stock * holding_cost
    expected_sout = sigma_d * 0.10 * stockout_cost
    total_cost    = expected_hold + expected_sout
-/
noncomputable def computePolicy (Z mu_d sigma_d : ℝ) (lead_time_days : ℕ)
    (holding_cost stockout_cost : ℝ) : PolicyResult :=
  let safety_stock := Z * sigma_d * Real.sqrt lead_time_days
  let reorder_point := mu_d * lead_time_days + safety_stock
  let expected_hold := safety_stock * holding_cost
  let expected_sout := sigma_d * 0.10 * stockout_cost
  { safety_stock := safety_stock
    reorder_point := reorder_point
    holding_cost := expected_hold
    stockout_cost := expected_sout
    total_cost := expected_hold + expected_sout }

/-- The single-SKU policy calculator: the z-score lookup `Z = z_map[service_level]`
(line 97) followed by the policy formulas (lines 102-106); `none` when the
service level is not a key of the dictionary. -/
noncomputable def policyCalc (mu_d sigma_d : ℝ) (service_level : ℚ)
    (lead_time_days : ℕ) (holding_cost stockout_cost : ℝ) : Option PolicyResult :=
  (z_map service_level).map fun Z : ℚ =>
    computePolicy (Z : ℝ) mu_d sigma_d lead_time_days holding_cost stockout_cost

/-- A row of the live policy table `policy_live` (lines 196-201): the input
row together with the five derived columns. -/
structure PolicyLiveRow where
  store_key : String
  prod_key : String
  mu_d : ℝ
  sigma_d : ℝ
  result : PolicyResult

/-- The batch computation at lines 196-201 of `app.py`: the five derived
columns added to every row of the policy table, using the z-score `Z`
already looked up at line 97. -/
noncomputable def policy_live (policy : List PolicyRow) (Z : ℚ) (lead_time_days : ℕ)
    (holding_cost stockout_cost : ℝ) : List PolicyLiveRow :=
  policy.map fun r =>
    let ss := (Z : ℝ) * r.sigma_d * Real.sqrt lead_time_days
    let rop := r.mu_d * lead_time_days + ss
    let hold := ss * holding_cost
    let sout := r.sigma_d * 0.10 * stockout_cost
    { store_key := r.store_key
      prod_key := r.prod_key
      mu_d := r.mu_d
      sigma_d := r.sigma_d
      result :=
        { safety_stock := ss
          reorder_point := rop
          holding_cost := hold
          stockout_cost := sout
          total_cost := hold + sout } }

/-- A row of the service-level comparison table (lines 182-186): the service
level (a key of `z_map`, displayed by the UI as a percent string) with the
safety stock and reorder point rounded by Python's `round`. -/
structure CompRow where
  service_level : ℚ
  safety_stock : ℤ
  reorder_point : ℤ

/-- The service-level comparison table (lines 182-186 of `app.py`): one row
per entry of `z_map.items()`, holding `round(ss)` and `round(rop)`. -/
noncomputable def comparisonRows (mu_d sigma_d : ℝ) (lead_time_days : ℕ) :
    List CompRow :=
  zTable.map fun p =>
    let ss := (p.2 : ℝ) * sigma_d * Real.sqrt lead_time_days
    let rop := mu_d * lead_time_days + ss
    { service_level := p.1
      safety_stock := round ss
      reorder_point := round rop }

/-- The mean of a list of reals, embedding `Series.mean()` (line 99);
only used on non-empty lists. -/
noncomputable def listMean (xs : List ℝ) : ℝ :=
  xs.sum / xs.length

/-- The sample standard deviation `Series.std()` with `ddof = 1` (line 100):
the square root of the sum of squared deviations from the mean divided by
`n - 1`; only used on lists of length greater than one. -/
noncomputable def sampleStd (xs : List ℝ) : ℝ :=
  Real.sqrt ((xs.map fun x => (x - listMean xs) ^ 2).sum / ((xs.length : ℝ) - 1))

/-- Lines 84-87 of `app.py`: the forecast rows matching both the selected
store and the selected product, sorted by date. -/
def filterSku (forecasts : List ForecastRecord) (store prod : String) :
    List ForecastRecord :=
  (forecasts.filter fun r => r.store_key == store && r.prod_key == prod).mergeSort
    fun a b => a.date ≤ b.date

/-- The outcome of one interaction for the selected SKU: the empty-state
warning (lines 89-91), a `KeyError` on the service level (line 97), or the
computed metrics (lines 99-106). -/
inductive SkuOutcome where
  | emptyWarning : SkuOutcome
  | invalidServiceLevel : SkuOutcome
  | report (mu_d sigma_d : ℝ) (result : PolicyResult) : SkuOutcome

/-- The per-SKU pipeline of `app.py` (lines 84-106): filter and sort the
forecast rows, stop with the warning when the selection is empty, then look
up the z-score and compute `mu_d`, `sigma_d` (with the fallback 5.0 for a
single row) and the policy. -/
noncomputable def skuPipeline (forecasts : List ForecastRecord) (store prod : String)
    (service_level : ℚ) (lead_time_days : ℕ) (holding_cost stockout_cost : ℝ) :
    SkuOutcome :=
  let sku_df := filterSku forecasts store prod
  if sku_df.isEmpty then .emptyWarning
  else
    match z_map service_level with
    | none => .invalidServiceLevel
    | some Z =>
      let mu_d := listMean (sku_df.map fun r => r.prediction)
      let sigma_d :=
        if 1 < sku_df.length then sampleStd (sku_df.map fun r => r.prediction)
        else 5.0
      .report mu_d sigma_d
        (computePolicy (Z : ℝ) mu_d sigma_d lead_time_days holding_cost stockout_cost)

/-! ### Helper lemmas about the z-score lookup -/

/-- Unfolding of the dictionary lookup: the four possible key-value pairs. -/
theorem z_map_cases {sl Z : ℚ} (h : z_map sl = some Z) :
    sl = 0.90 ∧ Z = 1.28 ∨ sl = 0.95 ∧ Z = 1.65 ∨
      sl = 0.97 ∧ Z = 1.88 ∨ sl = 0.99 ∧ Z = 2.33 := by
  unfold z_map at h
  split_ifs at h <;> simp_all

/-- Each entry of `zTable` is returned by the dictionary lookup. -/
theorem z_map_eq_of_mem {sl Z : ℚ} (h : (sl, Z) ∈ zTable) : z_map sl = some Z := by
  simp only [zTable, List.mem_cons, List.not_mem_nil, or_false, Prod.mk.injEq] at h
  rcases h with ⟨h1, h2⟩ | ⟨h1, h2⟩ | ⟨h1, h2⟩ | ⟨h1, h2⟩ <;> subst h1 <;> subst h2 <;>
    norm_num [z_map]

/-- Every z-score in the dictionary is nonnegative. -/
theorem z_map_nonneg {sl Z : ℚ} (h : z_map sl = some Z) : (0 : ℚ) ≤ Z := by
  rcases z_map_cases h with ⟨h1, h2⟩ | ⟨h1, h2⟩ | ⟨h1, h2⟩ | ⟨h1, h2⟩ <;> subst h2 <;>
    norm_num

/-! ### The claims -/

/-- Claim C1: for every input whose service level is in the enumerated set,
the policy calculator returns exactly
`safety_stock = z * sigma_d * sqrt(lead_time_days)`,
`reorder_point = mu_d * lead_time_days + safety_stock`,
`holding_cost = safety_stock * holding_cost_per_unit_day`,
`stockout_cost = sigma_d * 0.10 * stockout_cost_per_unit` and
`total_cost = holding_cost + stockout_cost`, with `z` given by the fixed
lookup table. -/
theorem C1_policy_calculator_formulas (mu_d sigma_d : ℝ) (sl Z : ℚ)
    (lead_time_days : ℕ) (holding_cost stockout_cost : ℝ)
    (h : (sl, Z) ∈ zTable) :
    policyCalc mu_d sigma_d sl lead_time_days holding_cost stockout_cost = some
      { safety_stock := (Z : ℝ) * sigma_d * Real.sqrt lead_time_days
        reorder_point :=
          mu_d * lead_time_days + (Z : ℝ) * sigma_d * Real.sqrt lead_time_days
        holding_cost := (Z : ℝ) * sigma_d * Real.sqrt lead_time_days * holding_cost
        stockout_cost := sigma_d * 0.10 * stockout_cost
        total_cost := (Z : ℝ) * sigma_d * Real.sqrt lead_time_days * holding_cost
          + sigma_d * 0.10 * stockout_cost } := by
  rw [policyCalc, z_map_eq_of_mem h]
  rfl

/-- Claim C1 witness: the formulas at `mu_d = 100`, `sigma_d = 10`,
service level 0.95, lead time 7, holding cost 0.5, stockout cost 5. -/
theorem C1_policy_calculator_formulas_witness :
    ((0.95 : ℚ), (1.65 : ℚ)) ∈ zTable ∧
      policyCalc 100 10 0.95 7 0.5 5 = some
        { safety_stock := ((1.65 : ℚ) : ℝ) * 10 * Real.sqrt ((7 : ℕ) : ℝ)
          reorder_point :=
            100 * ((7 : ℕ) : ℝ) + ((1.65 : ℚ) : ℝ) * 10 * Real.sqrt ((7 : ℕ) : ℝ)
          holding_cost := ((1.65 : ℚ) : ℝ) * 10 * Real.sqrt ((7 : ℕ) : ℝ) * 0.5
          stockout_cost := 10 * 0.10 * 5
          total_cost := ((1.65 : ℚ) : ℝ) * 10 * Real.sqrt ((7 : ℕ) : ℝ) * 0.5
            + 10 * 0.10 * 5 } :=
  ⟨by norm_num [zTable],
    C1_policy_calculator_formulas 100 10 0.95 1.65 7 0.5 5 (by norm_num [zTable])⟩

/-- Claim C2: the batch computation over the full policy table yields, for
each row, exactly the result of the single-SKU calculator applied to that
row's `(mu_d, sigma_d)` with the same parameters. -/
theorem C2_batch_scalar_equivalence (tbl : List PolicyRow) (sl Z : ℚ)
    (lead_time_days : ℕ) (holding_cost stockout_cost : ℝ)
    (hz : z_map sl = some Z) :
    (policy_live tbl Z lead_time_days holding_cost stockout_cost).map
        (fun r => some r.result) =
      tbl.map fun r =>
        policyCalc r.mu_d r.sigma_d sl lead_time_days holding_cost stockout_cost := by
  unfold policy_live policyCalc
  rw [hz]
  simp [List.map_map, computePolicy]

/-- Claim C2 witness: batch/scalar agreement on a one-row table at service
level 0.90. -/
theorem C2_batch_scalar_equivalence_witness :
    z_map 0.90 = some 1.28 ∧
      (policy_live [⟨"A", "B", 2, 3⟩] 1.28 1 0.5 5).map (fun r => some r.result) =
        [(⟨"A", "B", 2, 3⟩ : PolicyRow)].map fun r =>
          policyCalc r.mu_d r.sigma_d 0.90 1 0.5 5 :=
  ⟨by norm_num [z_map],
    C2_batch_scalar_equivalence [⟨"A", "B", 2, 3⟩] 0.90 1.28 1 0.5 5
      (by norm_num [z_map])⟩

/-- Claim C3: with `sigma_d ≥ 0` fixed, the safety stock is monotonically
non-decreasing in the service level across the enumerated set. -/
theorem C3_safety_stock_monotone (mu_d sigma_d : ℝ) (hsig : 0 ≤ sigma_d)
    (lead_time_days : ℕ) (hc sc : ℝ) (s1 s2 : ℚ) (hs : s1 ≤ s2)
    (r1 r2 : PolicyResult)
    (h1 : policyCalc mu_d sigma_d s1 lead_time_days hc sc = some r1)
    (h2 : policyCalc mu_d sigma_d s2 lead_time_days hc sc = some r2) :
    r1.safety_stock ≤ r2.safety_stock := by
  unfold policyCalc at h1 h2
  cases hz1 : z_map s1 with
  | none => rw [hz1] at h1; simp at h1
  | some Z1 =>
    cases hz2 : z_map s2 with
    | none => rw [hz2] at h2; simp at h2
    | some Z2 =>
      rw [hz1] at h1
      rw [hz2] at h2
      simp only [Option.map_some', Option.some.injEq] at h1 h2
      subst h1
      subst h2
      have hZ : Z1 ≤ Z2 := by
        rcases z_map_cases hz1 with ⟨e1, f1⟩ | ⟨e1, f1⟩ | ⟨e1, f1⟩ | ⟨e1, f1⟩ <;>
          rcases z_map_cases hz2 with ⟨e2, f2⟩ | ⟨e2, f2⟩ | ⟨e2, f2⟩ | ⟨e2, f2⟩ <;>
            subst e1 <;> subst e2 <;> subst f1 <;> subst f2 <;> norm_num at hs ⊢
      have hZ' : (Z1 : ℝ) ≤ (Z2 : ℝ) := by exact_mod_cast hZ
      exact mul_le_mul_of_nonneg_right (mul_le_mul_of_nonneg_right hZ' hsig)
        (Real.sqrt_nonneg _)

/-- Claim C3 witness: safety stock at service level 0.90 is at most the one
at 0.95, at `sigma_d = 0`, lead time 1. -/
theorem C3_safety_stock_monotone_witness :
    (0 : ℝ) ≤ 0 ∧ (0.90 : ℚ) ≤ 0.95 ∧
      policyCalc 0 0 0.90 1 0 0 = some (computePolicy ((1.28 : ℚ) : ℝ) 0 0 1 0 0) ∧
      policyCalc 0 0 0.95 1 0 0 = some (computePolicy ((1.65 : ℚ) : ℝ) 0 0 1 0 0) ∧
      (computePolicy ((1.28 : ℚ) : ℝ) 0 0 1 0 0).safety_stock ≤
        (computePolicy ((1.65 : ℚ) : ℝ) 0 0 1 0 0).safety_stock :=
  ⟨le_refl 0, by norm_num,
    by rw [policyCalc, show z_map 0.90 = some 1.28 from by norm_num [z_map]]; rfl,
    by rw [policyCalc, show z_map 0.95 = some 1.65 from by norm_num [z_map]]; rfl,
    C3_safety_stock_monotone 0 0 (le_refl 0) 1 0 0 0.90 0.95 (by norm_num) _ _
      (by rw [policyCalc, show z_map 0.90 = some 1.28 from by norm_num [z_map]]; rfl)
      (by rw [policyCalc, show z_map 0.95 = some 1.65 from by norm_num [z_map]]; rfl)⟩

/-- Claim C4 counterexample: with `mu_d = -1` and `sigma_d = 0` the reorder
point at lead time 1 is `-1` but at lead time 2 it is `-2`, so the reorder
point is not monotonically non-decreasing in the lead time when `mu_d` may
be negative, refuting the claim as stated. -/
theorem C4_reorder_point_counterexample :
    ∃ r1 r2, policyCalc (-1) 0 0.95 1 0 0 = some r1 ∧
      policyCalc (-1) 0 0.95 2 0 0 = some r2 ∧
      ¬ r1.reorder_point ≤ r2.reorder_point := by
  refine ⟨computePolicy ((1.65 : ℚ) : ℝ) (-1) 0 1 0 0,
    computePolicy ((1.65 : ℚ) : ℝ) (-1) 0 2 0 0, ?_, ?_, ?_⟩
  · rw [policyCalc, show z_map 0.95 = some 1.65 from by norm_num [z_map]]
    rfl
  · rw [policyCalc, show z_map 0.95 = some 1.65 from by norm_num [z_map]]
    rfl
  · norm_num [computePolicy]

/-- Claim C4 as amended: with `mu_d ≥ 0` and `sigma_d ≥ 0`, the reorder
point is monotonically non-decreasing in the lead time over `[1, 21]`,
holding all other parameters fixed. -/
theorem C4_reorder_point_monotone (mu_d sigma_d : ℝ) (hmu : 0 ≤ mu_d)
    (hsig : 0 ≤ sigma_d) (sl : ℚ) (hc sc : ℝ) (L1 L2 : ℕ)
    (hL1 : 1 ≤ L1) (hL : L1 ≤ L2) (hL2 : L2 ≤ 21) (r1 r2 : PolicyResult)
    (h1 : policyCalc mu_d sigma_d sl L1 hc sc = some r1)
    (h2 : policyCalc mu_d sigma_d sl L2 hc sc = some r2) :
    r1.reorder_point ≤ r2.reorder_point := by
  unfold policyCalc at h1 h2
  cases hz : z_map sl with
  | none => rw [hz] at h1; simp at h1
  | some Z =>
    rw [hz] at h1 h2
    simp only [Option.map_some', Option.some.injEq] at h1 h2
    subst h1
    subst h2
    have hZ : (0 : ℝ) ≤ (Z : ℝ) := by exact_mod_cast z_map_nonneg hz
    have hcast : (L1 : ℝ) ≤ (L2 : ℝ) := by exact_mod_cast hL
    have hsq : Real.sqrt L1 ≤ Real.sqrt L2 := Real.sqrt_le_sqrt hcast
    exact add_le_add (mul_le_mul_of_nonneg_left hcast hmu)
      (mul_le_mul_of_nonneg_left hsq (mul_nonneg hZ hsig))

/-- Claim C4 witness: reorder-point monotonicity from lead time 1 to 2 at
`mu_d = 1`, `sigma_d = 1`, service level 0.95. -/
theorem C4_reorder_point_monotone_witness :
    (0 : ℝ) ≤ 1 ∧ (0 : ℝ) ≤ 1 ∧ (1 : ℕ) ≤ 1 ∧ (1 : ℕ) ≤ 2 ∧ (2 : ℕ) ≤ 21 ∧
      policyCalc 1 1 0.95 1 0 0 = some (computePolicy ((1.65 : ℚ) : ℝ) 1 1 1 0 0) ∧
      policyCalc 1 1 0.95 2 0 0 = some (computePolicy ((1.65 : ℚ) : ℝ) 1 1 2 0 0) ∧
      (computePolicy ((1.65 : ℚ) : ℝ) 1 1 1 0 0).reorder_point ≤
        (computePolicy ((1.65 : ℚ) : ℝ) 1 1 2 0 0).reorder_point :=
  ⟨by norm_num, by norm_num, le_refl 1, by norm_num, by norm_num,
    by rw [policyCalc, show z_map 0.95 = some 1.65 from by norm_num [z_map]]; rfl,
    by rw [policyCalc, show z_map 0.95 = some 1.65 from by norm_num [z_map]]; rfl,
    C4_reorder_point_monotone 1 1 (by norm_num) (by norm_num) 0.95 0 0 1 2
      (le_refl 1) (by norm_num) (by norm_num) _ _
      (by rw [policyCalc, show z_map 0.95 = some 1.65 from by norm_num [z_map]]; rfl)
      (by rw [policyCalc, show z_map 0.95 = some 1.65 from by norm_num [z_map]]; rfl)⟩

/-- Claim C5: the calculator fails (the dictionary lookup raises) precisely
when the service level is not one of `{0.90, 0.95, 0.97, 0.99}`; for every
member of that set it succeeds, so it never silently substitutes a default
z-score. -/
theorem C5_fails_iff_service_level_not_enumerated (mu_d sigma_d : ℝ) (sl : ℚ)
    (lead_time_days : ℕ) (hc sc : ℝ) :
    (policyCalc mu_d sigma_d sl lead_time_days hc sc).isSome = true ↔
      sl ∈ ({0.90, 0.95, 0.97, 0.99} : Set ℚ) := by
  simp only [policyCalc, Option.isSome_map, z_map, Set.mem_insert_iff,
    Set.mem_singleton_iff]
  split_ifs <;> simp_all

/-- Claim C6: when the filtered SKU series has exactly one record, the
`sigma_d` fed into the policy computation is the fixed fallback 5.0; with
more than one record it is the sample standard deviation of the series. -/
theorem C6_sigma_fallback (forecasts : List ForecastRecord) (store prod : String)
    (sl Z : ℚ) (lead_time_days : ℕ) (hc sc : ℝ) (hz : z_map sl = some Z) :
    ((filterSku forecasts store prod).length = 1 →
      skuPipeline forecasts store prod sl lead_time_days hc sc =
        SkuOutcome.report
          (listMean ((filterSku forecasts store prod).map fun r => r.prediction)) 5.0
          (computePolicy (Z : ℝ)
            (listMean ((filterSku forecasts store prod).map fun r => r.prediction))
            5.0 lead_time_days hc sc)) ∧
    (1 < (filterSku forecasts store prod).length →
      skuPipeline forecasts store prod sl lead_time_days hc sc =
        SkuOutcome.report
          (listMean ((filterSku forecasts store prod).map fun r => r.prediction))
          (sampleStd ((filterSku forecasts store prod).map fun r => r.prediction))
          (computePolicy (Z : ℝ)
            (listMean ((filterSku forecasts store prod).map fun r => r.prediction))
            (sampleStd ((filterSku forecasts store prod).map fun r => r.prediction))
            lead_time_days hc sc)) := by
  constructor
  · intro h1
    cases hl : filterSku forecasts store prod with
    | nil => rw [hl] at h1; simp at h1
    | cons a t =>
      rw [hl] at h1
      simp only [List.length_cons] at h1
      have ht : t = [] := by
        cases t with
        | nil => rfl
        | cons b u => simp at h1
      subst ht
      simp [skuPipeline, hl, hz]
  · intro h1
    cases hl : filterSku forecasts store prod with
    | nil => rw [hl] at h1; simp at h1
    | cons a t =>
      rw [hl] at h1
      have ht : 0 < t.length := by simp only [List.length_cons] at h1; omega
      simp [skuPipeline, hl, hz, ht]

/-- Claim C6 witness: a one-record series for store `S1`, product `P1`. -/
theorem C6_sigma_fallback_witness :
    z_map 0.95 = some 1.65 ∧
      (((filterSku [⟨"S1", "P1", 0, 3, none, none⟩] "S1" "P1").length = 1 →
        skuPipeline [⟨"S1", "P1", 0, 3, none, none⟩] "S1" "P1" 0.95 7 0.5 5 =
          SkuOutcome.report
            (listMean ((filterSku [⟨"S1", "P1", 0, 3, none, none⟩] "S1" "P1").map
              fun r => r.prediction)) 5.0
            (computePolicy ((1.65 : ℚ) : ℝ)
              (listMean ((filterSku [⟨"S1", "P1", 0, 3, none, none⟩] "S1" "P1").map
                fun r => r.prediction)) 5.0 7 0.5 5)) ∧
      (1 < (filterSku [⟨"S1", "P1", 0, 3, none, none⟩] "S1" "P1").length →
        skuPipeline [⟨"S1", "P1", 0, 3, none, none⟩] "S1" "P1" 0.95 7 0.5 5 =
          SkuOutcome.report
            (listMean ((filterSku [⟨"S1", "P1", 0, 3, none, none⟩] "S1" "P1").map
              fun r => r.prediction))
            (sampleStd ((filterSku [⟨"S1", "P1", 0, 3, none, none⟩] "S1" "P1").map
              fun r => r.prediction))
            (computePolicy ((1.65 : ℚ) : ℝ)
              (listMean ((filterSku [⟨"S1", "P1", 0, 3, none, none⟩] "S1" "P1").map
                fun r => r.prediction))
              (sampleStd ((filterSku [⟨"S1", "P1", 0, 3, none, none⟩] "S1" "P1").map
                fun r => r.prediction))
              7 0.5 5))) :=
  ⟨by norm_num [z_map],
    C6_sigma_fallback [⟨"S1", "P1", 0, 3, none, none⟩] "S1" "P1" 0.95 1.65 7 0.5 5
      (by norm_num [z_map])⟩

/-- Claim C7 counterexample: at `mu_d = -1`, `sigma_d = 0` (an input the spec
allows, since `mu_d ≥ 0` is expected but not enforced) the reorder point is
negative, refuting the claim that every PolicyResult has all five fields
nonnegative. -/
theorem C7_nonneg_counterexample :
    ∃ r, policyCalc (-1) 0 0.95 1 0 0 = some r ∧ r.reorder_point < 0 := by
  refine ⟨computePolicy ((1.65 : ℚ) : ℝ) (-1) 0 1 0 0, ?_, ?_⟩
  · rw [policyCalc, show z_map 0.95 = some 1.65 from by norm_num [z_map]]
    rfl
  · norm_num [computePolicy]

/-- Claim C7 as amended: when `mu_d`, `sigma_d` and both cost parameters are
nonnegative, every PolicyResult produced by the calculator has all five
fields nonnegative. -/
theorem C7_nonneg_fields (mu_d sigma_d hc sc : ℝ) (hmu : 0 ≤ mu_d)
    (hsig : 0 ≤ sigma_d) (hhc : 0 ≤ hc) (hsc : 0 ≤ sc) (sl : ℚ)
    (lead_time_days : ℕ) (r : PolicyResult)
    (h : policyCalc mu_d sigma_d sl lead_time_days hc sc = some r) :
    0 ≤ r.safety_stock ∧ 0 ≤ r.reorder_point ∧ 0 ≤ r.holding_cost ∧
      0 ≤ r.stockout_cost ∧ 0 ≤ r.total_cost := by
  unfold policyCalc at h
  cases hz : z_map sl with
  | none => rw [hz] at h; simp at h
  | some Z =>
    rw [hz] at h
    simp only [Option.map_some', Option.some.injEq] at h
    subst h
    have hZ : (0 : ℝ) ≤ (Z : ℝ) := by exact_mod_cast z_map_nonneg hz
    have hss : 0 ≤ (Z : ℝ) * sigma_d * Real.sqrt lead_time_days :=
      mul_nonneg (mul_nonneg hZ hsig) (Real.sqrt_nonneg _)
    have hsout : 0 ≤ sigma_d * 0.10 * sc :=
      mul_nonneg (mul_nonneg hsig (by norm_num)) hsc
    exact ⟨hss, add_nonneg (mul_nonneg hmu (Nat.cast_nonneg _)) hss,
      mul_nonneg hss hhc, hsout, add_nonneg (mul_nonneg hss hhc) hsout⟩

/-- Claim C7 witness: nonnegative fields at `mu_d = 100`, `sigma_d = 10`,
holding cost 0.5, stockout cost 5, service level 0.95, lead time 7. -/
theorem C7_nonneg_fields_witness :
    (0 : ℝ) ≤ 100 ∧ (0 : ℝ) ≤ 10 ∧ (0 : ℝ) ≤ 0.5 ∧ (0 : ℝ) ≤ 5 ∧
      policyCalc 100 10 0.95 7 0.5 5 =
        some (computePolicy ((1.65 : ℚ) : ℝ) 100 10 7 0.5 5) ∧
      (0 ≤ (computePolicy ((1.65 : ℚ) : ℝ) 100 10 7 0.5 5).safety_stock ∧
        0 ≤ (computePolicy ((1.65 : ℚ) : ℝ) 100 10 7 0.5 5).reorder_point ∧
        0 ≤ (computePolicy ((1.65 : ℚ) : ℝ) 100 10 7 0.5 5).holding_cost ∧
        0 ≤ (computePolicy ((1.65 : ℚ) : ℝ) 100 10 7 0.5 5).stockout_cost ∧
        0 ≤ (computePolicy ((1.65 : ℚ) : ℝ) 100 10 7 0.5 5).total_cost) :=
  ⟨by norm_num, by norm_num, by norm_num, by norm_num,
    by rw [policyCalc, show z_map 0.95 = some 1.65 from by norm_num [z_map]]; rfl,
    C7_nonneg_fields 100 10 0.5 5 (by norm_num) (by norm_num) (by norm_num)
      (by norm_num) 0.95 7 _
      (by rw [policyCalc, show z_map 0.95 = some 1.65 from by norm_num [z_map]]; rfl)⟩

/-- Claim C8 counterexample: at `mu_d = 0`, `sigma_d = 1`, lead time 1, the
comparison-table entry for service level 0.95 stores the rounded safety
stock 2, while the calculator's safety stock is 1.65, so the entries are not
the full PolicyResult values, refuting the claim as stated (the table also
carries no cost fields at all). -/
theorem C8_comparison_counterexample :
    ∃ r c, policyCalc 0 1 0.95 1 0 0 = some r ∧
      (comparisonRows 0 1 1)[1]? = some c ∧ ((c.safety_stock : ℝ) ≠ r.safety_stock) := by
  refine ⟨computePolicy ((1.65 : ℚ) : ℝ) 0 1 1 0 0, ⟨0.95, 2, 2⟩, ?_, ?_, ?_⟩
  · rw [policyCalc, show z_map 0.95 = some 1.65 from by norm_num [z_map]]
    rfl
  · simp only [comparisonRows, zTable, List.map_cons, List.map_nil]
    norm_num [round_eq, Real.sqrt_one]
  · simp only [computePolicy]
    norm_num [Real.sqrt_one]

/-- Claim C8 as amended: the comparison table has one entry per service level
of the dictionary — all four, in order — and each entry carries that service
level together with the calculator's safety stock and reorder point for it,
rounded to the nearest integer; no cost fields are included. -/
theorem C8_comparison_table (mu_d sigma_d : ℝ) (lead_time_days : ℕ) (hc sc : ℝ)
    (i : ℕ) (hi : i < 4) :
    (comparisonRows mu_d sigma_d lead_time_days).length = 4 ∧
    ∃ p r, zTable[i]? = some p ∧
      policyCalc mu_d sigma_d p.1 lead_time_days hc sc = some r ∧
      (comparisonRows mu_d sigma_d lead_time_days)[i]? = some
        { service_level := p.1
          safety_stock := round r.safety_stock
          reorder_point := round r.reorder_point } := by
  constructor
  · simp [comparisonRows, zTable]
  · interval_cases i
    · exact ⟨(0.90, 1.28), computePolicy ((1.28 : ℚ) : ℝ) mu_d sigma_d lead_time_days hc sc,
        by simp [zTable],
        by rw [policyCalc, show z_map 0.90 = some 1.28 from by norm_num [z_map]]; rfl,
        by simp [comparisonRows, zTable, computePolicy]⟩
    · exact ⟨(0.95, 1.65), computePolicy ((1.65 : ℚ) : ℝ) mu_d sigma_d lead_time_days hc sc,
        by simp [zTable],
        by rw [policyCalc, show z_map 0.95 = some 1.65 from by norm_num [z_map]]; rfl,
        by simp [comparisonRows, zTable, computePolicy]⟩
    · exact ⟨(0.97, 1.88), computePolicy ((1.88 : ℚ) : ℝ) mu_d sigma_d lead_time_days hc sc,
        by simp [zTable],
        by rw [policyCalc, show z_map 0.97 = some 1.88 from by norm_num [z_map]]; rfl,
        by simp [comparisonRows, zTable, computePolicy]⟩
    · exact ⟨(0.99, 2.33), computePolicy ((2.33 : ℚ) : ℝ) mu_d sigma_d lead_time_days hc sc,
        by simp [zTable],
        by rw [policyCalc, show z_map 0.99 = some 2.33 from by norm_num [z_map]]; rfl,
        by simp [comparisonRows, zTable, computePolicy]⟩

/-- Claim C8 witness: the comparison table at `mu_d = 0`, `sigma_d = 0`,
lead time 1, first entry. -/
theorem C8_comparison_table_witness :
    (0 : ℕ) < 4 ∧
      ((comparisonRows 0 0 1).length = 4 ∧
        ∃ p r, zTable[0]? = some p ∧
          policyCalc 0 0 p.1 1 0 0 = some r ∧
          (comparisonRows 0 0 1)[0]? = some
            { service_level := p.1
              safety_stock := round r.safety_stock
              reorder_point := round r.reorder_point }) :=
  ⟨by norm_num, C8_comparison_table 0 0 1 0 0 0 (by norm_num)⟩

/-- Claim C9: the per-SKU pipeline takes the empty-selection warning path
exactly when the filtered series is empty; in that case it stops before any
policy computation, and an empty selection is never treated as a data-load
or service-level error. -/
theorem C9_empty_selection_warning (forecasts : List ForecastRecord)
    (store prod : String) (sl : ℚ) (lead_time_days : ℕ) (hc sc : ℝ) :
    skuPipeline forecasts store prod sl lead_time_days hc sc =
        SkuOutcome.emptyWarning ↔
      filterSku forecasts store prod = [] := by
  cases hl : filterSku forecasts store prod with
  | nil => simp [skuPipeline, hl]
  | cons a t =>
    cases hz : z_map sl <;> simp [skuPipeline, hl, hz]

/-- Claim C10: for a non-empty filtered series the pipeline reports
`mu_d` equal to the arithmetic mean of the series' `prediction` column, and
`sigma_d` equal to the sample standard deviation of that same column when
the series has more than one row (5.0 otherwise); both statistics are
derived from the `prediction` values alone. -/
theorem C10_mu_sigma_from_predictions (forecasts : List ForecastRecord)
    (store prod : String) (sl Z : ℚ) (lead_time_days : ℕ) (hc sc : ℝ)
    (hz : z_map sl = some Z) (hne : filterSku forecasts store prod ≠ []) :
    skuPipeline forecasts store prod sl lead_time_days hc sc =
      SkuOutcome.report
        (((filterSku forecasts store prod).map fun r => r.prediction).sum /
          ((((filterSku forecasts store prod).map fun r => r.prediction)).length : ℝ))
        (if 1 < (filterSku forecasts store prod).length
          then sampleStd ((filterSku forecasts store prod).map fun r => r.prediction)
          else 5.0)
        (computePolicy (Z : ℝ)
          (((filterSku forecasts store prod).map fun r => r.prediction).sum /
            ((((filterSku forecasts store prod).map fun r => r.prediction)).length : ℝ))
          (if 1 < (filterSku forecasts store prod).length
            then sampleStd ((filterSku forecasts store prod).map fun r => r.prediction)
            else 5.0)
          lead_time_days hc sc) := by
  cases hl : filterSku forecasts store prod with
  | nil => exact absurd hl hne
  | cons a t =>
    simp [skuPipeline, hl, hz, listMean]

/-- Claim C10 witness: the statistics of a one-record series for store `S1`,
product `P1`. -/
theorem C10_mu_sigma_from_predictions_witness :
    z_map 0.95 = some 1.65 ∧ filterSku [⟨"S1", "P1", 0, 3, none, none⟩] "S1" "P1" ≠ [] ∧
      skuPipeline [⟨"S1", "P1", 0, 3, none, none⟩] "S1" "P1" 0.95 7 0.5 5 =
        SkuOutcome.report
          (((filterSku [⟨"S1", "P1", 0, 3, none, none⟩] "S1" "P1").map
              fun r => r.prediction).sum /
            ((((filterSku [⟨"S1", "P1", 0, 3, none, none⟩] "S1" "P1").map
              fun r => r.prediction)).length : ℝ))
          (if 1 < (filterSku [⟨"S1", "P1", 0, 3, none, none⟩] "S1" "P1").length
            then sampleStd ((filterSku [⟨"S1", "P1", 0, 3, none, none⟩] "S1" "P1").map
              fun r => r.prediction)
            else 5.0)
          (computePolicy ((1.65 : ℚ) : ℝ)
            (((filterSku [⟨"S1", "P1", 0, 3, none, none⟩] "S1" "P1").map
                fun r => r.prediction).sum /
              ((((filterSku [⟨"S1", "P1", 0, 3, none, none⟩] "S1" "P1").map
                fun r => r.prediction)).length : ℝ))
            (if 1 < (filterSku [⟨"S1", "P1", 0, 3, none, none⟩] "S1" "P1").length
              then sampleStd ((filterSku [⟨"S1", "P1", 0, 3, none, none⟩] "S1" "P1").map
                fun r => r.prediction)
              else 5.0)
            7 0.5 5) :=
  ⟨by norm_num [z_map], by simp [filterSku, List.filter],
    C10_mu_sigma_from_predictions [⟨"S1", "P1", 0, 3, none, none⟩] "S1" "P1" 0.95 1.65
      7 0.5 5 (by norm_num [z_map]) (by simp [filterSku, List.filter])⟩
